import Mathlib

/-!
Shallow embedding of the OpenSesame eyelink plug-in
(eyelink_calibrate/libeyelink.py) and verification of its
device-control and drift-correction behaviour.

Conventions of the embedding:
* machine integers and gaze coordinates are modelled as Int;
* every exceptions.runtime_error call site (plus the UnboundLocalError
  that sample can hit) is identified by a PyErr constructor;
* the device and the keyboard are modelled as explicit input streams
  (per-iteration key polls, per-pull samples, per-query calibration
  results), and unbounded while loops take explicit fuel;
* device-side effects with no bearing on control flow (sendCommand,
  msecDelay, print logging, applyDriftCorrect, sendKeybutton, the dead
  average-distance computation of fix_triggered_drift_correction) are
  not modelled; comments note each omission.
-/

namespace Libeyelink

/-- Exception values. Each constructor stands for one raise site of
libeyelink.py: the runtime_error calls, identified by their message, and
the UnboundLocalError that sample raises when the local variable gaze is
never assigned. -/
inductive PyErr where
  | badFilename             -- __init__, line 81: filename longer than 8 chars
  | connectFailed           -- __init__, lines 102/150: failed to connect
  | calibrateWhileRecording -- calibrate, line 225
  | driftWhileRecording     -- drift_correction line 252 / fix_triggered line 322
  | notConnected            -- drift_correction, line 262
  | blockStartFailed        -- prepare_drift_correction line 296 / start_recording line 423
  | startRecordingFailed    -- start_recording, line 412
  | notRecording            -- sample line 490 / wait_for_event line 517
  | eyeResolutionFailed     -- set_eye_used, line 475
  | unboundLocal            -- sample, line 502: gaze referenced before assignment
  deriving DecidableEq

/-! ### Filename validation (__init__, lines 79-81) -/

/-- Index of the last dot of a bare file name, as in os.path.splitext
restricted to names without directory separators. -/
def rfindDot (p : List Char) : Option Nat :=
  (List.range p.length).foldl (fun acc i => if p.getD i ' ' = '.' then some i else acc) none

/-- os.path.splitext on a bare file name: split at the last dot provided
some character before that dot is not itself a dot; the extension keeps
the leading dot, exactly as in Python. -/
def splitext (p : List Char) : List Char × List Char :=
  match rfindDot p with
  | none => (p, [])
  | some d =>
      if (List.range d).any (fun j => p.getD j ' ' != '.') then (p.take d, p.drop d)
      else (p, [])

/-- The filename guard of libeyelink.__init__ (lines 79-81): raise when
the stem is longer than 8 characters or the extension (dot included)
longer than 4. -/
def fileCheck (data_file : List Char) : Except PyErr Unit :=
  if 8 < (splitext data_file).1.length ∨ 4 < (splitext data_file).2.length then
    Except.error PyErr.badFilename
  else Except.ok ()

/-- libeyelink.__init__, reduced to the two steps that can raise and
their order: the filename guard runs first (lines 79-81), the device
connection is attempted only afterwards (lines 98-150, summarised by the
connectOk flag). -/
def libeyelink_init (data_file : List Char) (connectOk : Bool) : Except PyErr Unit :=
  match fileCheck data_file with
  | .error e => Except.error e
  | .ok _ => if connectOk then Except.ok () else Except.error PyErr.connectFailed

/-! ### Eye selection and sampling (lines 457-502) -/

/-- Eye constants set in __init__ (lines 93-95). -/
def left_eye : Int := 0

def right_eye : Int := 1

def binocular : Int := 2

/-- The newest link sample as seen through the pylink accessors used by
sample: isRightSample / isLeftSample and the two getGaze results. -/
structure EyeSample where
  isRight : Bool
  isLeft : Bool
  rightGaze : Int × Int
  leftGaze : Int × Int
  deriving DecidableEq

/-- The pylink float data attached to a link event, through the
accessors used by the wait_for_x wrappers. -/
structure FloatData where
  time : Int
  startGaze : Int × Int
  endGaze : Int × Int
  deriving DecidableEq

/-- Tracker-facing state read by set_eye_used, sample and
wait_for_event: the recording flag, the cached eye_used variable, the
eyeAvailable report, the newest sample, the link event queue (kind code
paired with its float data) and the stale float data that getFloatData
would report when no getNextData call was made. -/
structure TrState where
  recording : Bool
  eye_used : Option Int
  eyeAvailable : Int
  newest : Option EyeSample
  queue : List (Nat × FloatData)
  stale : FloatData

/-- set_eye_used (lines 457-475): Right stays right, Left and Binocular
resolve to left, anything else raises. -/
def set_eye_used (st : TrState) : Except PyErr Int :=
  if st.eyeAvailable = right_eye then Except.ok right_eye
  else if st.eyeAvailable = left_eye ∨ st.eyeAvailable = binocular then Except.ok left_eye
  else Except.error PyErr.eyeResolutionFailed

/-- The lazy eye resolution shared by sample and wait_for_event
(lines 492-493 and 519-520): use the cached eye_used, else resolve. -/
def resolvedEye (st : TrState) : Except PyErr Int :=
  match st.eye_used with
  | some e => Except.ok e
  | none => set_eye_used st

/-- sample (lines 477-502): recording guard, lazy eye resolution, then
return the gaze of the newest sample when it carries data for the
resolved eye. In every other case (no newest sample, or a sample without
the resolved eye) the Python local gaze is never assigned and the
return statement raises UnboundLocalError. -/
def sample (st : TrState) : Except PyErr (Int × Int) :=
  if !st.recording then Except.error PyErr.notRecording
  else
    match resolvedEye st with
    | .error e => Except.error e
    | .ok eye =>
      match st.newest with
      | some s =>
        if eye = right_eye ∧ s.isRight = true then Except.ok s.rightGaze
        else if eye = left_eye ∧ s.isLeft = true then Except.ok s.leftGaze
        else Except.error PyErr.unboundLocal
      | none => Except.error PyErr.unboundLocal

/-- calibrate (lines 211-229): only the sequencing guard is modelled;
doTrackerSetup is a device interaction with no return value. -/
def calibrate (recording : Bool) : Except PyErr Unit :=
  if recording then Except.error PyErr.calibrateWhileRecording else Except.ok ()

/-! ### Event waiting (lines 504-617) -/

/-- pylink link-event codes. -/
def STARTBLINK : Nat := 3

def ENDBLINK : Nat := 4

def STARTSACC : Nat := 5

def ENDSACC : Nat := 6

def STARTFIX : Nat := 7

def ENDFIX : Nat := 8

/-- The d = getNextData polling loop of wait_for_event (lines 522-524)
over a finite queue: return the float data of the first event whose kind
matches. An exhausted queue means the Python loop spins forever, which
the model reports as none. -/
def waitLoop (event : Nat) : List (Nat × FloatData) → Option FloatData
  | [] => none
  | a :: rest => if a.1 = event then some a.2 else waitLoop event rest

/-- wait_for_event (lines 504-526): recording guard, lazy eye
resolution, then the polling loop. Since d starts at 0, a zero event
code skips the loop and getFloatData returns the stale data. -/
def wait_for_event (st : TrState) (event : Nat) : Except PyErr (Option FloatData) :=
  if !st.recording then Except.error PyErr.notRecording
  else
    match resolvedEye st with
    | .error e => Except.error e
    | .ok _ =>
      if event = 0 then Except.ok (some st.stale)
      else Except.ok (waitLoop event st.queue)

/-- wait_for_saccade_start (lines 528-541). -/
def wait_for_saccade_start (st : TrState) : Except PyErr (Option (Int × (Int × Int))) :=
  (wait_for_event st STARTSACC).map (Option.map fun d => (d.time, d.startGaze))

/-- wait_for_saccade_end (lines 543-556). -/
def wait_for_saccade_end (st : TrState) :
    Except PyErr (Option (Int × (Int × Int) × (Int × Int))) :=
  (wait_for_event st ENDSACC).map (Option.map fun d => (d.time, d.startGaze, d.endGaze))

/-- wait_for_fixation_start (lines 558-571). -/
def wait_for_fixation_start (st : TrState) : Except PyErr (Option (Int × (Int × Int))) :=
  (wait_for_event st STARTFIX).map (Option.map fun d => (d.time, d.startGaze))

/-- wait_for_fixation_end (lines 574-587). -/
def wait_for_fixation_end (st : TrState) :
    Except PyErr (Option (Int × (Int × Int) × (Int × Int))) :=
  (wait_for_event st ENDFIX).map (Option.map fun d => (d.time, d.startGaze, d.endGaze))

/-- wait_for_blink_start (lines 589-602). -/
def wait_for_blink_start (st : TrState) : Except PyErr (Option Int) :=
  (wait_for_event st STARTBLINK).map (Option.map FloatData.time)

/-- wait_for_blink_end (lines 604-617). -/
def wait_for_blink_end (st : TrState) : Except PyErr (Option Int) :=
  (wait_for_event st ENDBLINK).map (Option.map FloatData.time)

/-! ### Drift correction (lines 231-392) -/

/-- Outcome of the doDriftCorrect device call (line 265): a result code,
or a raised exception caught by the bare except of drift_correction. -/
inductive DevCall where
  | res (code : Int)
  | exn
  deriving DecidableEq

/-- Input streams of fix_triggered_drift_correction: the per-iteration
keyboard poll (my_keyboard.get_key, line 338), the per-iteration
self.sample() pull (line 344, which may itself raise), the per-query
getCalibrationResult outcome (line 375, value or exception), and the
waitForBlockStart report of prepare_drift_correction (line 295). -/
structure FixEnv where
  keyPressed : Nat → Bool
  samples : Nat → Except PyErr (Int × Int)
  calResult : Nat → Except Unit Int
  blockStartOk : Bool

/-- How a drift-correction call ends: a normal return value, a
propagated exception, or fuel exhaustion while the loop is still
polling. -/
inductive FixOutcome where
  | ret (b : Bool)
  | raise (e : PyErr)
  | stillRunning
  deriving DecidableEq

/-- Outcome paired with the value of self.recording after the call ends
(or when fuel runs out mid-loop). -/
abbrev FixResult := FixOutcome × Bool

/-- The buffer update of one loop iteration (lines 346-359): skip an
exact duplicate of the last accepted sample; clear both buffers when the
new sample deviates from the last accepted one by more than
reset_threshold on either axis (the deviating sample is not kept);
otherwise append. List indexing lx[-1] is modelled by getLastD, and is
only reached under the same emptiness guards as in the source. -/
def updateBuffers (rt x y : Int) (lx ly : List Int) : List Int × List Int :=
  if lx.length = 0 ∨ x ≠ lx.getLastD 0 ∨ y ≠ ly.getLastD 0 then
    if 0 < lx.length ∧ (rt < |x - lx.getLastD 0| ∨ rt < |y - ly.getLastD 0|) then
      ([], [])
    else
      (lx ++ [x], ly ++ [y])
  else (lx, ly)

/-- Value taken by the result variable after the try block of
lines 373-379: the getCalibrationResult value, or the initial -1 when
the call raises (the except branch also clears the buffers, which the
result != 0 branch then does again; the net effect is identical). -/
def calVal : Except Unit Int → Int
  | .ok r => r
  | .error _ => -1

/-- The while loop of fix_triggered_drift_correction (lines 333-392)
with explicit fuel. n counts loop iterations (one keyboard poll and one
sample pull each), c counts getCalibrationResult queries. While the loop
runs, self.recording is true; the escape return (line 339) and the
success return after the loop (lines 387-392) reset it to false, and a
sample exception propagates with the flag still true. The computed
average position and its distance to the target (lines 364-366) do not
influence control flow and are omitted; sendKeybutton and
applyDriftCorrect are device effects. -/
def fixLoop (env : FixEnv) (ms : Nat) (rt : Int) :
    Nat → Nat → Nat → List Int → List Int → FixResult
  | 0, _, _, _, _ => (FixOutcome.stillRunning, true)
  | fuel + 1, n, c, lx, ly =>
    if lx.length < ms then
      if env.keyPressed n then (FixOutcome.ret false, false)
      else
        match env.samples n with
        | .error e => (FixOutcome.raise e, true)
        | .ok s =>
          if (updateBuffers rt s.1 s.2 lx ly).1.length = ms then
            if calVal (env.calResult c) ≠ 0 then
              fixLoop env ms rt fuel (n + 1) (c + 1) [] []
            else
              fixLoop env ms rt fuel (n + 1) (c + 1)
                (updateBuffers rt s.1 s.2 lx ly).1 (updateBuffers rt s.1 s.2 lx ly).2
          else fixLoop env ms rt fuel (n + 1) c
            (updateBuffers rt s.1 s.2 lx ly).1 (updateBuffers rt s.1 s.2 lx ly).2
    else (FixOutcome.ret true, false)

/-- prepare_drift_correction (lines 276-296): the filter and target
commands and the settle delay are device-side; the modelled behaviour is
the waitForBlockStart check, which raises on failure. -/
def prepare_drift_correction (env : FixEnv) : Except PyErr Unit :=
  if env.blockStartOk then Except.ok () else Except.error PyErr.blockStartFailed

/-- fix_triggered_drift_correction (lines 298-392): sequencing guard,
then self.recording := true, then prepare (whose failure propagates with
the flag still true, since there is no try/finally), then the
convergence loop. The target position only feeds the dead distance
computation and is omitted. -/
def fix_triggered_drift_correction (env : FixEnv) (ms : Nat) (rt : Int)
    (fuel : Nat) (recording : Bool) : FixResult :=
  if recording then (FixOutcome.raise PyErr.driftWhileRecording, recording)
  else
    match prepare_drift_correction env with
    | .error e => (FixOutcome.raise e, true)
    | .ok _ => fixLoop env ms rt fuel 0 0 [] []

/-- drift_correction (lines 231-274): sequencing guard, dispatch to the
fixation-triggered variant, else the operator-triggered path: connection
check, one doDriftCorrect call; the result 27 (escape) returns false,
any caught exception returns false after being logged (print, line 273),
every other result returns true. The while True loop exits on its first
iteration along every path. -/
def drift_correction (recording connected fixTriggered : Bool) (env : FixEnv)
    (ms : Nat) (rt : Int) (fuel : Nat) (dev : DevCall) : FixResult :=
  if recording then (FixOutcome.raise PyErr.driftWhileRecording, recording)
  else if fixTriggered then fix_triggered_drift_correction env ms rt fuel recording
  else if !connected then (FixOutcome.raise PyErr.notConnected, recording)
  else
    match dev with
    | .exn => (FixOutcome.ret false, recording)
    | .res e => if e ≠ 27 then (FixOutcome.ret true, recording) else (FixOutcome.ret false, recording)

/-! ### start_recording (lines 394-423) -/

/-- MAX_TRY (line 55). -/
def MAX_TRY : Nat := 100

/-- How the retry loop of start_recording ends. The attached number
counts startRecording device calls actually made. -/
inductive StartRecOutcome where
  | success (attempts : Nat)
  | raised (attempts : Nat)
  | outOfFuel
  deriving DecidableEq

/-- The retry loop of start_recording (lines 405-416): attempt the
device start, break on success, raise once the counter i exceeds
MAX_TRY, else increment i, log, delay 100 ms and retry. err k = true
means the (k+1)-st startRecording call reports an error. The
waitForBlockStart check after the loop (line 422) is outside this
model. -/
def startRecLoop (err : Nat → Bool) : Nat → Nat → StartRecOutcome
  | 0, _ => StartRecOutcome.outOfFuel
  | fuel + 1, i =>
    if !err i then StartRecOutcome.success (i + 1)
    else if i > MAX_TRY then StartRecOutcome.raised (i + 1)
    else startRecLoop err fuel (i + 1)

/-- start_recording entry into the retry loop, i = 0. -/
def start_recording (err : Nat → Bool) (fuel : Nat) : StartRecOutcome :=
  startRecLoop err fuel 0

/-! ### Dummy tracker (lines 675-760) -/

/-- Return shapes of the wait_for_x operations: a bare timestamp, a
(timestamp, position) pair, or a (timestamp, position, position)
triple. -/
inductive EvRet where
  | timeOnly (t : Int)
  | timePos (t : Int) (p : Int × Int)
  | timePosPos (t : Int) (p q : Int × Int)
  deriving DecidableEq

/-- The six wait-for convenience operations. -/
inductive WaitOp where
  | saccadeStart
  | saccadeEnd
  | fixationStart
  | fixationEnd
  | blinkStart
  | blinkEnd
  deriving DecidableEq

/-- Shapes returned by the real wrappers (lines 528-617), applied to the
float data of the matched event: saccade and fixation starts return
(time, start gaze), their ends return (time, start gaze, end gaze),
blink start and end return the bare timestamp. -/
def realWaitRet (op : WaitOp) (d : FloatData) : EvRet :=
  match op with
  | .saccadeStart => EvRet.timePos d.time d.startGaze
  | .saccadeEnd => EvRet.timePosPos d.time d.startGaze d.endGaze
  | .fixationStart => EvRet.timePos d.time d.startGaze
  | .fixationEnd => EvRet.timePosPos d.time d.startGaze d.endGaze
  | .blinkStart => EvRet.timeOnly d.time
  | .blinkEnd => EvRet.timeOnly d.time

/-- Shapes returned by libeyelink_dummy (lines 732-754) after its
simulated 100 ms delay, with ticks the pygame tick count: every
operation returns (ticks, (0, 0)) except wait_for_saccade_end, which
returns (ticks, (0, 0), (0, 0)). -/
def dummyWaitRet (op : WaitOp) (ticks : Int) : EvRet :=
  match op with
  | .saccadeStart => EvRet.timePos ticks (0, 0)
  | .saccadeEnd => EvRet.timePosPos ticks (0, 0) (0, 0)
  | .fixationStart => EvRet.timePos ticks (0, 0)
  | .fixationEnd => EvRet.timePos ticks (0, 0)
  | .blinkStart => EvRet.timePos ticks (0, 0)
  | .blinkEnd => EvRet.timePos ticks (0, 0)

/-- Arity of a wait_for_x return value. -/
def retArity : EvRet → Nat
  | .timeOnly _ => 1
  | .timePos _ _ => 2
  | .timePosPos _ _ _ => 3

/-- libeyelink_dummy.sample (lines 726-727). -/
def dummy_sample : Int × Int := (0, 0)

/-- libeyelink_dummy.drift_correction (lines 703-705): always true. -/
def dummy_drift_correction : Bool := true

/-- libeyelink_dummy.fix_triggered_drift_correction (lines 710-712):
always true. -/
def dummy_fix_triggered_drift_correction : Bool := true

/-! ### Concrete inputs used by witnesses and counterexamples -/

/-- Sample source yielding the same sample forever: no key press, a
successful block start, a calibration query that always succeeds. -/
def envConst : FixEnv :=
  ⟨fun _ => false, fun _ => Except.ok (100, 100), fun _ => Except.ok 0, true⟩

/-- Sample source whose consecutive samples always differ by 1 on the x
axis, well within the default reset_threshold of 10. -/
def envAlt : FixEnv :=
  ⟨fun _ => false, fun n => Except.ok (if n % 2 = 0 then 100 else 101, 100),
   fun _ => Except.ok 0, true⟩

/-- Environment whose waitForBlockStart fails. -/
def envBlockFail : FixEnv :=
  ⟨fun _ => false, fun _ => Except.ok (0, 0), fun _ => Except.ok 0, false⟩

/-- Environment that converges immediately with min_samples = 1. -/
def envQuick : FixEnv :=
  ⟨fun _ => false, fun _ => Except.ok (5, 5), fun _ => Except.ok 0, true⟩

/-- Zero float data. -/
def flo0 : FloatData := ⟨0, (0, 0), (0, 0)⟩

/-- A right-eye-only newest sample with gaze (3, 4). -/
def sampR : EyeSample := ⟨true, false, (3, 4), (0, 0)⟩

/-- A left-eye-only newest sample. -/
def sampL : EyeSample := ⟨false, true, (0, 0), (1, 1)⟩

/-- Recording state, right eye resolved, newest sample sampR. -/
def stW : TrState := ⟨true, some 1, 1, some sampR, [], flo0⟩

/-- Recording state with no newest sample at all. -/
def stNone : TrState := ⟨true, some 1, 1, none, [], flo0⟩

/-- Recording state where the newest sample lacks the resolved (right)
eye. -/
def stWrong : TrState := ⟨true, some 1, 1, some sampL, [], flo0⟩

/-- A saccade-end event preceding the fixation start in the queue. -/
def floA : FloatData := ⟨5, (1, 2), (3, 4)⟩

/-- The first fixation-start float data of the queue of stC8. -/
def floB : FloatData := ⟨9, (7, 8), (6, 6)⟩

/-- Recording state, left eye resolved, queue holding a saccade end and
then a fixation start. -/
def stC8 : TrState := ⟨true, some 0, 0, none, [(ENDSACC, floA), (STARTFIX, floB)], flo0⟩

/-! ### Helper lemmas -/

/-- Every fixLoop run ends in one of three shapes: a normal return with
the recording flag reset to false, a propagated exception with the flag
still true, or fuel exhaustion mid-loop with the flag still true. -/
theorem fixLoop_cases (env : FixEnv) (ms : Nat) (rt : Int) :
    ∀ (fuel n c : Nat) (lx ly : List Int),
      (∃ b, fixLoop env ms rt fuel n c lx ly = (FixOutcome.ret b, false)) ∨
      (∃ e, fixLoop env ms rt fuel n c lx ly = (FixOutcome.raise e, true)) ∨
      fixLoop env ms rt fuel n c lx ly = (FixOutcome.stillRunning, true) := by
  intro fuel
  induction fuel with
  | zero => intro n c lx ly; exact Or.inr (Or.inr rfl)
  | succ f ih =>
    intro n c lx ly
    simp only [fixLoop]
    split
    · split
      · exact Or.inl ⟨false, rfl⟩
      · split
        · exact Or.inr (Or.inl ⟨_, rfl⟩)
        · split
          · split
            · exact ih (n + 1) (c + 1) [] []
            · exact ih (n + 1) (c + 1) _ _
          · exact ih (n + 1) c _ _
    · exact Or.inl ⟨true, rfl⟩

/-- One unfolding of fixLoop on the constant-sample environment with the
buffer stuck at one accepted sample: the duplicate sample is skipped and
the loop recurses with the buffer unchanged. -/
theorem constLoopStep (f n c : Nat) :
    fixLoop envConst 30 10 (f + 1) n c [100] [100] =
      fixLoop envConst 30 10 f (n + 1) c [100] [100] := rfl

/-- On the constant-sample environment the loop never gets past one
accepted sample, for any amount of fuel. -/
theorem constLoop_stuck : ∀ (fuel n c : Nat),
    fixLoop envConst 30 10 fuel n c [100] [100] = (FixOutcome.stillRunning, true) := by
  intro fuel
  induction fuel with
  | zero => intro n c; rfl
  | succ f ih => intro n c; rw [constLoopStep f n c]; exact ih (n + 1) c

/-- The polling loop returns the float data of the first matching event,
skipping every non-matching event before it. -/
theorem waitLoop_first (event : Nat) (d : FloatData) (post : List (Nat × FloatData)) :
    ∀ pre : List (Nat × FloatData), (∀ x ∈ pre, x.1 ≠ event) →
      waitLoop event (pre ++ (event, d) :: post) = some d := by
  intro pre
  induction pre with
  | nil => intro h; simp [waitLoop]
  | cons a tl ih =>
    intro h
    have ha : a.1 ≠ event := h a (List.mem_cons_self a tl)
    simp only [List.cons_append, waitLoop, if_neg ha]
    exact ih (fun x hx => h x (List.mem_cons_of_mem a hx))

/-- One unfolding of the start_recording retry loop. -/
theorem startRecLoop_step (err : Nat → Bool) (f i : Nat) :
    startRecLoop err (f + 1) i =
      if !err i then StartRecOutcome.success (i + 1)
      else if i > MAX_TRY then StartRecOutcome.raised (i + 1)
      else startRecLoop err f (i + 1) := rfl

/-- When every device attempt fails, the retry loop raises after exactly
102 startRecording calls: the counter starts at 0 and the raise guard
i > MAX_TRY only fires at i = 101. -/
theorem startRecLoop_allFail (err : Nat → Bool) (h : ∀ i, err i = true) :
    ∀ (fuel i : Nat), i ≤ 101 → 102 - i ≤ fuel →
      startRecLoop err fuel i = StartRecOutcome.raised 102 := by
  intro fuel
  induction fuel with
  | zero => intro i h1 h2; omega
  | succ f ih =>
    intro i h1 h2
    rw [startRecLoop_step, h i]
    have hmt : MAX_TRY = 100 := rfl
    by_cases hi : i > MAX_TRY
    · have h101 : i = 101 := by omega
      subst h101
      simp [hi]
    · rw [if_neg (by simp), if_neg hi]
      exact ih (i + 1) (by omega) (by omega)

/-- When the first success is the (k+1)-st attempt and the raise guard
is not reached first, the retry loop returns success after exactly
i + k + 1 calls, starting from counter i. -/
theorem startRecLoop_firstSuccess (err : Nat → Bool) :
    ∀ (k i fuel : Nat), (∀ j, j < k → err (i + j) = true) → err (i + k) = false →
      i + k ≤ 101 → k < fuel →
      startRecLoop err fuel i = StartRecOutcome.success (i + k + 1) := by
  intro k
  induction k with
  | zero =>
    intro i fuel hpre hk hle hfuel
    match fuel, hfuel with
    | f + 1, _ =>
      rw [startRecLoop_step]
      have h0 : err i = false := by simpa using hk
      rw [h0]
      simp
  | succ k ih =>
    intro i fuel hpre hk hle hfuel
    match fuel, hfuel with
    | f + 1, hf =>
      have h0 : err i = true := by simpa using hpre 0 (Nat.succ_pos k)
      rw [startRecLoop_step, h0]
      have hmt : MAX_TRY = 100 := rfl
      have hile : ¬ i > MAX_TRY := by omega
      rw [if_neg (by simp), if_neg hile]
      have hpre1 : ∀ j, j < k → err (i + 1 + j) = true := by
        intro j hj
        have h2 : i + 1 + j = i + (j + 1) := by omega
        rw [h2]
        exact hpre (j + 1) (by omega)
      have hk1 : err (i + 1 + k) = false := by
        have h2 : i + 1 + k = i + (k + 1) := by omega
        rw [h2]; exact hk
      have := ih (i + 1) f hpre1 hk1 (by omega) (by omega)
      rw [this]
      congr 1
      omega

/-! ### Claims C1, C2, C3 -/

/-- C1 (amended): for every run of fix_triggered_drift_correction whose
precondition holds (recording initially false), a normal return (success
true or escape false) always leaves the recording flag false, and a run
that exhausts its fuel mid-loop still has the flag true, witnessing that
the routine holds the flag true for its duration. (The original claim
also asserted the flag is false after a raised internal failure; the
counterexample refutes that part.) -/
theorem C1_recording_flag (env : FixEnv) (ms : Nat) (rt : Int) (fuel : Nat) :
    (∀ b, (fix_triggered_drift_correction env ms rt fuel false).1 = FixOutcome.ret b →
      (fix_triggered_drift_correction env ms rt fuel false).2 = false) ∧
    ((fix_triggered_drift_correction env ms rt fuel false).1 = FixOutcome.stillRunning →
      (fix_triggered_drift_correction env ms rt fuel false).2 = true) := by
  cases hp : prepare_drift_correction env with
  | error e =>
    have hval : fix_triggered_drift_correction env ms rt fuel false = (FixOutcome.raise e, true) := by
      simp [fix_triggered_drift_correction, hp]
    rw [hval]
    exact ⟨fun b hb => (by cases hb), fun hb => rfl⟩
  | ok u =>
    have hval : fix_triggered_drift_correction env ms rt fuel false =
        fixLoop env ms rt fuel 0 0 [] [] := by
      simp [fix_triggered_drift_correction, hp]
    rw [hval]
    rcases fixLoop_cases env ms rt fuel 0 0 [] [] with ⟨b0, hb0⟩ | ⟨e0, he0⟩ | hs
    · rw [hb0]; exact ⟨fun b hb => rfl, fun hb => (by cases hb)⟩
    · rw [he0]; exact ⟨fun b hb => (by cases hb), fun hb => (by cases hb)⟩
    · rw [hs]; exact ⟨fun b hb => (by cases hb), fun hb => rfl⟩

/-- C1 counterexample: with recording initially false, a failed
waitForBlockStart inside prepare_drift_correction raises out of
fix_triggered_drift_correction with the recording flag still true — the
internal-failure exit path does not reset the flag. -/
theorem C1_flag_leak_counterexample :
    fix_triggered_drift_correction envBlockFail 30 10 100 false =
      (FixOutcome.raise PyErr.blockStartFailed, true) := by decide

/-- C1 witness: a concrete run that returns true, with the flag false
afterwards. -/
theorem C1_witness :
    (fix_triggered_drift_correction envQuick 1 10 3 false).1 = FixOutcome.ret true ∧
    (fix_triggered_drift_correction envQuick 1 10 3 false).2 = false :=
  ⟨by decide, (C1_recording_flag envQuick 1 10 3).1 true (by decide)⟩

/-- C2: whenever a newly pulled sample deviates from the last accepted
sample by more than reset_threshold on either axis and the accepted
buffer is non-empty, both buffers are cleared to length 0 — the
deviating sample itself is not kept — and the loop keeps polling with
empty buffers. -/
theorem C2_reset_clears_buffer (rt x y : Int) (lx ly : List Int) (hrt : 0 ≤ rt)
    (hlx : lx ≠ [])
    (hdev : rt < |x - lx.getLastD 0| ∨ rt < |y - ly.getLastD 0|) :
    updateBuffers rt x y lx ly = ([], []) ∧
    ∀ (env : FixEnv) (ms n c fuel : Nat), 0 < ms →
      env.keyPressed n = false → env.samples n = Except.ok (x, y) → lx.length < ms →
      fixLoop env ms rt (fuel + 1) n c lx ly = fixLoop env ms rt fuel (n + 1) c [] [] := by
  have houter : lx.length = 0 ∨ x ≠ lx.getLastD 0 ∨ y ≠ ly.getLastD 0 := by
    rcases hdev with h | h
    · right; left
      intro he
      rw [he, sub_self, abs_zero] at h
      omega
    · right; right
      intro he
      rw [he, sub_self, abs_zero] at h
      omega
  have hinner : 0 < lx.length ∧ (rt < |x - lx.getLastD 0| ∨ rt < |y - ly.getLastD 0|) :=
    ⟨List.length_pos.mpr hlx, hdev⟩
  have hupd : updateBuffers rt x y lx ly = ([], []) := by
    unfold updateBuffers
    rw [if_pos houter, if_pos hinner]
  refine ⟨hupd, ?_⟩
  intro env ms n c fuel hms hkey hsamp hlen
  simp only [fixLoop, if_pos hlen, hkey, Bool.false_eq_true, if_false, hsamp, hupd]
  rw [if_neg (by simpa using Nat.ne_of_lt hms)]

/-- C2 witness: a buffer holding one accepted sample at (50, 50) is
wiped by a new sample at (100, 100) with the default reset_threshold
of 10. -/
theorem C2_witness : updateBuffers 10 100 100 [50] [50] = ([], []) :=
  (C2_reset_clears_buffer 10 100 100 [50] [50] (by decide) (by decide)
    (Or.inl (by decide))).1

/-- C3 counterexample: on a sample source that yields the same sample
(100, 100) forever — 30 identical samples in particular, all within
reset_threshold of each other — with default min_samples = 30, a
succeeding calibration query and no cancel key, the routine never
returns true for any amount of fuel: the duplicate-skipping branch
leaves the buffer stuck at one accepted sample. -/
theorem C3_identical_counterexample :
    ¬ ∃ fuel, (fix_triggered_drift_correction envConst 30 10 fuel false).1 =
      FixOutcome.ret true := by
  rintro ⟨fuel, h⟩
  cases fuel with
  | zero => exact absurd h (by decide)
  | succ f =>
    have h1 : fix_triggered_drift_correction envConst 30 10 (f + 1) false =
        fixLoop envConst 30 10 f 1 0 [100] [100] := rfl
    rw [h1, constLoop_stuck f 1 0] at h
    exact absurd h (by decide)

/-- C3 (amended): with default min_samples = 30, a sample source whose
consecutive samples differ but stay within reset_threshold on both axes
accumulates 30 accepted samples, converges, and returns true with the
recording flag reset (given a succeeding calibration query and no cancel
key). A source of literally identical consecutive samples is instead
stuck at one accepted sample, because the loop appends a sample only
when it differs from the last accepted one. -/
theorem C3_convergence : fix_triggered_drift_correction envAlt 30 10 40 false =
    (FixOutcome.ret true, false) := by decide

/-! ### Claim C4 -/

/-- C4 counterexample: with every device attempt failing, start_recording
raises after 102 attempts, not after the documented 100: the attempt
counter starts at 0 and the guard i > MAX_TRY is checked only after each
failed call. -/
theorem C4_attempt_count_counterexample :
    start_recording (fun _ => true) 200 = StartRecOutcome.raised 102 ∧
    start_recording (fun _ => true) 200 ≠ StartRecOutcome.raised 100 :=
  ⟨by decide, by decide⟩

/-- C4 (amended): start_recording retries the device start command with
a fixed 100 ms delay; when every attempt fails it raises the
recording-start error after exactly MAX_TRY + 2 = 102 attempts (no more,
no fewer), and when some attempt k with k ≤ 102 succeeds the retry loop
returns without raising, reporting exactly k calls made. -/
theorem C4_retry_bound (err : Nat → Bool) (fuel : Nat) :
    ((∀ i, err i = true) → 102 ≤ fuel →
      start_recording err fuel = StartRecOutcome.raised 102) ∧
    (∀ k, k ≤ 101 → (∀ j, j < k → err j = true) → err k = false → k < fuel →
      start_recording err fuel = StartRecOutcome.success (k + 1)) := by
  constructor
  · intro h hf
    exact startRecLoop_allFail err h fuel 0 (by omega) (by omega)
  · intro k hk hpre hsucc hf
    have h := startRecLoop_firstSuccess err k 0 fuel
      (by intro j hj; simpa using hpre j hj) (by simpa using hsucc) (by omega) hf
    simpa using h

/-- C4 witness: the all-fail bound at fuel 102, and a first-attempt
success. -/
theorem C4_witness :
    start_recording (fun _ => true) 102 = StartRecOutcome.raised 102 ∧
    start_recording (fun n => decide (n ≠ 0)) 5 = StartRecOutcome.success 1 :=
  ⟨(C4_retry_bound (fun _ => true) 102).1 (fun _ => rfl) (by omega),
   (C4_retry_bound (fun n => decide (n ≠ 0)) 5).2 0 (by omega)
     (fun j hj => absurd hj (Nat.not_lt_zero j)) (by decide) (by omega)⟩

/-! ### Claim C5 -/

/-- C5: session construction validates the data-file name before
anything else. A name whose stem is at most 8 characters with an
extension (dot included, as os.path.splitext returns it) of at most 4
characters passes the guard and construction proceeds to the device
connection; a longer stem or extension is rejected with the
configuration error regardless of whether the device would connect. -/
theorem C5_filename_guard (p : List Char) (connectOk : Bool) :
    ((splitext p).1.length ≤ 8 → (splitext p).2.length ≤ 4 →
      libeyelink_init p connectOk =
        (if connectOk then Except.ok () else Except.error PyErr.connectFailed)) ∧
    (8 < (splitext p).1.length ∨ 4 < (splitext p).2.length →
      libeyelink_init p connectOk = Except.error PyErr.badFilename) := by
  constructor
  · intro h1 h2
    have hok : fileCheck p = Except.ok () := by
      unfold fileCheck
      rw [if_neg (by omega)]
    simp [libeyelink_init, hok]
  · intro h
    have herr : fileCheck p = Except.error PyErr.badFilename := by
      unfold fileCheck
      rw [if_pos h]
    simp [libeyelink_init, herr]

/-- C5 witness: a stem of exactly 8 with extension .edf (4 characters
with the dot) is accepted; a stem of 9 is rejected; an extension of 5
characters with the dot is rejected. -/
theorem C5_witness :
    libeyelink_init "abcdefgh.edf".data true = Except.ok () ∧
    libeyelink_init "abcdefghi.edf".data true = Except.error PyErr.badFilename ∧
    libeyelink_init "a.abcd".data true = Except.error PyErr.badFilename :=
  ⟨by simpa using (C5_filename_guard "abcdefgh.edf".data true).1 (by decide) (by decide),
   (C5_filename_guard "abcdefghi.edf".data true).2 (Or.inl (by decide)),
   (C5_filename_guard "a.abcd".data true).2 (Or.inr (by decide))⟩

/-! ### Claim C6 -/

/-- C6: operator-triggered drift correction (fix_triggered false, device
connected, not recording) returns true when doDriftCorrect reports any
result other than the escape code 27, returns false on 27, and returns
false — without re-raising — when the device call raises, the exception
being caught by the bare except and logged. -/
theorem C6_operator_drift (env : FixEnv) (ms : Nat) (rt : Int) (fuel : Nat) :
    drift_correction false true false env ms rt fuel (DevCall.res 27) =
      (FixOutcome.ret false, false) ∧
    (∀ e : Int, e ≠ 27 → drift_correction false true false env ms rt fuel (DevCall.res e) =
      (FixOutcome.ret true, false)) ∧
    drift_correction false true false env ms rt fuel DevCall.exn =
      (FixOutcome.ret false, false) := by
  refine ⟨by simp [drift_correction], fun e he => ?_, by simp [drift_correction]⟩
  simp [drift_correction, he]

/-- C6 witness: a successful doDriftCorrect result code 0 returns
true. -/
theorem C6_witness :
    drift_correction false true false envConst 30 10 0 (DevCall.res 0) =
      (FixOutcome.ret true, false) :=
  (C6_operator_drift envConst 30 10 0).2.1 0 (by decide)

/-! ### Claim C7 -/

/-- C7: sequencing guards. calibrate and drift_correction (both the
operator-triggered dispatch and the fixation-triggered routine) raise
when the recording flag is true; sample and wait_for_event raise when it
is false; and while recording, sample returns the newest gaze coordinate
of the resolved eye. -/
theorem C7_sequencing_guards (st : TrState) (env : FixEnv) (ms : Nat) (rt : Int)
    (fuel : Nat) (connected fixTriggered : Bool) (dev : DevCall) (event : Nat) :
    calibrate true = Except.error PyErr.calibrateWhileRecording ∧
    drift_correction true connected fixTriggered env ms rt fuel dev =
      (FixOutcome.raise PyErr.driftWhileRecording, true) ∧
    fix_triggered_drift_correction env ms rt fuel true =
      (FixOutcome.raise PyErr.driftWhileRecording, true) ∧
    (st.recording = false → sample st = Except.error PyErr.notRecording) ∧
    (st.recording = false → wait_for_event st event = Except.error PyErr.notRecording) ∧
    (st.recording = true → st.eye_used = some right_eye →
      ∀ s, st.newest = some s → s.isRight = true → sample st = Except.ok s.rightGaze) ∧
    (st.recording = true → st.eye_used = some left_eye →
      ∀ s, st.newest = some s → s.isLeft = true → sample st = Except.ok s.leftGaze) := by
  refine ⟨rfl, by simp [drift_correction], by simp [fix_triggered_drift_correction],
    ?_, ?_, ?_, ?_⟩
  · intro h; simp [sample, h]
  · intro h; simp [wait_for_event, h]
  · intro hrec heye s hns hr
    simp [sample, hrec, resolvedEye, heye, hns, hr]
  · intro hrec heye s hns hl
    simp [sample, hrec, resolvedEye, heye, hns, hl, left_eye, right_eye]

/-- C7 witness: calibrate raises while recording, and a recording state
with a right-eye newest sample returns its gaze. -/
theorem C7_witness :
    calibrate true = Except.error PyErr.calibrateWhileRecording ∧
    sample stW = Except.ok sampR.rightGaze :=
  ⟨(C7_sequencing_guards stW envConst 30 10 0 true false (DevCall.res 0) 0).1,
   (C7_sequencing_guards stW envConst 30 10 0 true false (DevCall.res 0) 0).2.2.2.2.2.1
     rfl rfl sampR rfl rfl⟩

/-! ### Claim C8 -/

/-- C8: for every nonzero event kind and every queue consisting of
non-matching events followed by a matching one, wait_for_event discards
all the preceding events and returns exactly the float data of the first
matching event; wait_for_fixation_start is the thin projection returning
the (timestamp, start position) pair of that event. -/
theorem C8_first_match (st : TrState) (event : Nat) (pre post : List (Nat × FloatData))
    (d : FloatData) (hrec : st.recording = true) (heye : st.eye_used = some left_eye)
    (hev : event ≠ 0) (hpre : ∀ x ∈ pre, x.1 ≠ event)
    (hq : st.queue = pre ++ (event, d) :: post) :
    wait_for_event st event = Except.ok (some d) ∧
    (event = STARTFIX → wait_for_fixation_start st =
      Except.ok (some (d.time, d.startGaze))) := by
  have h1 : wait_for_event st event = Except.ok (some d) := by
    simp [wait_for_event, hrec, resolvedEye, heye, hev, hq,
      waitLoop_first event d post pre hpre]
  refine ⟨h1, fun hsf => ?_⟩
  subst hsf
  simp [wait_for_fixation_start, h1, Except.map, Option.map]

/-- C8 witness: a queue holding a saccade end and then a fixation start;
the saccade end is skipped and the fixation start is returned with its
timestamp and start position. -/
theorem C8_witness :
    wait_for_event stC8 STARTFIX = Except.ok (some floB) ∧
    wait_for_fixation_start stC8 = Except.ok (some (floB.time, floB.startGaze)) := by
  have h := C8_first_match stC8 STARTFIX [(ENDSACC, floA)] [] floB rfl rfl
    (by decide) (by decide) rfl
  exact ⟨h.1, h.2 rfl⟩

/-! ### Claim C9 -/

/-- C9 (amended): sample never returns a coordinate of the wrong eye —
every coordinate it returns is the gaze of the resolved eye taken from a
present newest sample. (The original claim also said that an absent or
wrong-eye newest sample behaves as no new sample so the caller can poll
again; the counterexample shows sample instead raises an unbound-local
error on those inputs.) -/
theorem C9_no_wrong_eye (st : TrState) (g : Int × Int)
    (h : sample st = Except.ok g) :
    ∃ s, st.newest = some s ∧
      ((resolvedEye st = Except.ok right_eye ∧ s.isRight = true ∧ g = s.rightGaze) ∨
       (resolvedEye st = Except.ok left_eye ∧ s.isLeft = true ∧ g = s.leftGaze)) := by
  unfold sample at h
  by_cases hrec : st.recording = true
  · rw [hrec] at h
    simp only [Bool.not_true, Bool.false_eq_true, if_false] at h
    cases he : resolvedEye st with
    | error e => simp only [he] at h; exact Except.noConfusion h
    | ok eye =>
      simp only [he] at h
      cases hn : st.newest with
      | none => simp only [hn] at h; exact Except.noConfusion h
      | some s =>
        simp only [hn] at h
        by_cases h1 : eye = right_eye ∧ s.isRight = true
        · rw [if_pos h1] at h
          injection h with hg
          exact ⟨s, rfl, Or.inl ⟨by rw [h1.1], h1.2, hg.symm⟩⟩
        · rw [if_neg h1] at h
          by_cases h2 : eye = left_eye ∧ s.isLeft = true
          · rw [if_pos h2] at h
            injection h with hg
            exact ⟨s, rfl, Or.inr ⟨by rw [h2.1], h2.2, hg.symm⟩⟩
          · rw [if_neg h2] at h; cases h
  · have hrec0 : st.recording = false := by
      cases hb : st.recording
      · rfl
      · exact absurd hb hrec
    rw [hrec0] at h
    simp only [Bool.not_false, if_true] at h
    cases h

/-- C9 counterexample: while recording with the right eye resolved, an
absent newest sample, or a newest sample carrying only left-eye data,
makes sample raise the unbound-local error — it does not return a
no-new-sample indication the caller could poll on. -/
theorem C9_raise_counterexample :
    sample stNone = Except.error PyErr.unboundLocal ∧
    sample stWrong = Except.error PyErr.unboundLocal :=
  ⟨rfl, rfl⟩

/-- C9 witness: the returned coordinate (3, 4) of stW is the right-eye
gaze of its newest sample. -/
theorem C9_witness :
    ∃ s, stW.newest = some s ∧
      ((resolvedEye stW = Except.ok right_eye ∧ s.isRight = true ∧ (3, 4) = s.rightGaze) ∨
       (resolvedEye stW = Except.ok left_eye ∧ s.isLeft = true ∧ (3, 4) = s.leftGaze)) :=
  C9_no_wrong_eye stW ((3 : Int), (4 : Int)) rfl

/-! ### Claim C10 -/

/-- C10 (code bug): the dummy tracker does not match the real
return-value shapes everywhere. The real wait_for_fixation_end returns a
(time, start, end) triple while the dummy returns a pair; the real
wait_for_blink_start and wait_for_blink_end return a bare timestamp
while the dummy returns a pair. The saccade and fixation-start waits, as
well as sample (origin coordinate) and both drift corrections (always
true), do match. -/
theorem C10_dummy_shapes (d : FloatData) (t : Int) :
    retArity (dummyWaitRet WaitOp.fixationEnd t) = 2 ∧
    retArity (realWaitRet WaitOp.fixationEnd d) = 3 ∧
    retArity (dummyWaitRet WaitOp.blinkStart t) = 2 ∧
    retArity (realWaitRet WaitOp.blinkStart d) = 1 ∧
    retArity (dummyWaitRet WaitOp.blinkEnd t) = 2 ∧
    retArity (realWaitRet WaitOp.blinkEnd d) = 1 ∧
    retArity (dummyWaitRet WaitOp.saccadeStart t) = retArity (realWaitRet WaitOp.saccadeStart d) ∧
    retArity (dummyWaitRet WaitOp.saccadeEnd t) = retArity (realWaitRet WaitOp.saccadeEnd d) ∧
    retArity (dummyWaitRet WaitOp.fixationStart t) = retArity (realWaitRet WaitOp.fixationStart d) ∧
    dummy_sample = (0, 0) ∧
    dummy_drift_correction = true ∧
    dummy_fix_triggered_drift_correction = true :=
  ⟨rfl, rfl, rfl, rfl, rfl, rfl, rfl, rfl, rfl, rfl, rfl, rfl⟩

end Libeyelink
